import Mathlib

/-!
Shallow embedding of the churn-prediction core of the repository
(`server/models/Customer.js` and the customer routes), together with
theorems checking the specification's claims against it.

Numbers are modelled as rationals (the JavaScript arithmetic involved here
is exact on the inputs considered), dates as natural-number timestamps.
-/

/-- Lifecycle status of a customer (`status` enum in the schema). -/
inductive Status where
  | active
  | at_risk
  | churned
deriving DecidableEq, Repr

/-- Risk level attached to a prediction record (`riskLevel` enum). -/
inductive RiskLevel where
  | low
  | medium
  | high
deriving DecidableEq, Repr

/-- Embedded feature sub-document of the customer schema. -/
structure Features where
  daysSinceLastLogin : ℚ
  avgSessionDuration : ℚ
  totalTransactions : ℚ
  avgTransactionValue : ℚ
  productUsage : ℚ
  supportSatisfaction : ℚ
  contractRenewalHistory : ℚ
deriving DecidableEq, Repr

/-- One entry of the `predictions` array of a customer. -/
structure Prediction where
  date : ℕ
  churnProbability : ℚ
  riskLevel : RiskLevel
  factors : List String
  modelVersion : String
deriving DecidableEq, Repr

/-- One entry of the `interactions` array of a customer. -/
structure Interaction where
  date : ℕ
  type : String
  description : String
  outcome : String
deriving DecidableEq, Repr

/-- A customer document, following the mongoose schema field for field. -/
structure Customer where
  name : String
  email : String
  company : String
  subscriptionValue : ℚ
  lastActivity : ℕ
  supportTickets : ℚ
  loginFrequency : ℚ
  contractLength : ℚ
  churnRisk : ℚ
  status : Status
  features : Features
  predictions : List Prediction
  interactions : List Interaction
deriving DecidableEq, Repr

/-- The days-since-last-login term of `calculateChurnRisk`:
`(this.features.daysSinceLastLogin / 30) * weights.daysSinceLastLogin`.
Note the source applies no `Math.min` cap to this ratio. -/
def daysSinceLastLoginContribution (d : ℚ) : ℚ :=
  d / 30 * (25 / 100)

/-- The support-tickets term of `calculateChurnRisk`:
`Math.min(this.supportTickets / 10, 1) * weights.supportTickets`. -/
def supportTicketsContribution (t : ℚ) : ℚ :=
  min (t / 10) 1 * (20 / 100)

/-- The login-frequency term of `calculateChurnRisk`:
`(1 - Math.min(this.loginFrequency / 30, 1)) * Math.abs(weights.loginFrequency)`. -/
def loginFrequencyContribution (f : ℚ) : ℚ :=
  (1 - min (f / 30) 1) * (15 / 100)

/-- The contract-length term of `calculateChurnRisk`:
`(1 - Math.min(this.contractLength / 36, 1)) * Math.abs(weights.contractLength)`. -/
def contractLengthContribution (l : ℚ) : ℚ :=
  (1 - min (l / 36) 1) * (10 / 100)

/-- The support-satisfaction term of `calculateChurnRisk`:
`(1 - this.features.supportSatisfaction / 10) * Math.abs(weights.supportSatisfaction)`. -/
def supportSatisfactionContribution (s : ℚ) : ℚ :=
  (1 - s / 10) * (15 / 100)

/-- The subscription-value term of `calculateChurnRisk`:
`(1 - Math.min(this.subscriptionValue / 10000, 1)) * Math.abs(weights.subscriptionValue)`. -/
def subscriptionValueContribution (v : ℚ) : ℚ :=
  (1 - min (v / 10000) 1) * (10 / 100)

/-- The product-usage term of `calculateChurnRisk`:
`(1 - Math.min(this.features.productUsage / 100, 1)) * Math.abs(weights.productUsage)`. -/
def productUsageContribution (u : ℚ) : ℚ :=
  (1 - min (u / 100) 1) * (5 / 100)

/-- `customerSchema.methods.calculateChurnRisk`: base risk 0.5, plus the
seven signal terms in source order, then `Math.max(0, Math.min(1, risk))`. -/
def calculateChurnRisk (c : Customer) : ℚ :=
  let risk : ℚ := 1 / 2
  let risk := risk + daysSinceLastLoginContribution c.features.daysSinceLastLogin
  let risk := risk + supportTicketsContribution c.supportTickets
  let risk := risk + loginFrequencyContribution c.loginFrequency
  let risk := risk + contractLengthContribution c.contractLength
  let risk := risk + supportSatisfactionContribution c.features.supportSatisfaction
  let risk := risk + subscriptionValueContribution c.subscriptionValue
  let risk := risk + productUsageContribution c.features.productUsage
  max 0 (min 1 risk)

/-- `customerSchema.methods.determineStatus`: the method reads only
`this.churnRisk`, so it is embedded as a function of that score. -/
def determineStatus (churnRisk : ℚ) : Status :=
  if churnRisk < 3 / 10 then Status.active
  else if churnRisk < 7 / 10 then Status.at_risk
  else Status.churned

/-- The inline risk-level classifier of the predict and bulk routes:
`p < 0.3 ? low : p < 0.7 ? medium : high`. -/
def riskLevelOf (p : ℚ) : RiskLevel :=
  if p < 3 / 10 then RiskLevel.low
  else if p < 7 / 10 then RiskLevel.medium
  else RiskLevel.high

/-- `customerSchema.pre('save')`: when `this.isModified('features') || this.isNew`,
assign `this.churnRisk = this.calculateChurnRisk()` and then
`this.status = this.determineStatus()` (which reads the just-updated risk). -/
def preSave (featuresModified isNew : Bool) (c : Customer) : Customer :=
  if featuresModified || isNew then
    let c := { c with churnRisk := calculateChurnRisk c }
    { c with status := determineStatus c.churnRisk }
  else c

/-- `router.post('/')`: `new Customer(req.body)` followed by `save()`; on a
new document the pre-save hook fires with `isNew` true. -/
def createCustomer (c : Customer) : Customer :=
  preSave true true c

/-- The JSON body of a PUT update: each field optionally present. -/
structure UpdateBody where
  name : Option String := none
  email : Option String := none
  company : Option String := none
  subscriptionValue : Option ℚ := none
  supportTickets : Option ℚ := none
  loginFrequency : Option ℚ := none
  contractLength : Option ℚ := none
  churnRisk : Option ℚ := none
  status : Option Status := none
  features : Option Features := none

/-- `router.put('/:id')`: `findByIdAndUpdate(id, req.body, {new, runValidators})`.
`findByIdAndUpdate` issues a direct update and does not run document
middleware, so the `pre('save')` hook is bypassed: the body's fields are
persisted as given, with no recomputation of risk or status. -/
def updateCustomer (b : UpdateBody) (c : Customer) : Customer :=
  { c with
    name := b.name.getD c.name
    email := b.email.getD c.email
    company := b.company.getD c.company
    subscriptionValue := b.subscriptionValue.getD c.subscriptionValue
    supportTickets := b.supportTickets.getD c.supportTickets
    loginFrequency := b.loginFrequency.getD c.loginFrequency
    contractLength := b.contractLength.getD c.contractLength
    churnRisk := b.churnRisk.getD c.churnRisk
    status := b.status.getD c.status
    features := b.features.getD c.features }

/-- The factor list built by `router.post('/:id/predict')`: four fixed rules
checked in source order, each pushing one string when it fires. -/
def factorsOf (c : Customer) : List String :=
  let fs : List String := []
  let fs := if c.features.daysSinceLastLogin > 14 then fs ++ ["Inactive user"] else fs
  let fs := if c.supportTickets > 5 then fs ++ ["High support volume"] else fs
  let fs := if c.features.supportSatisfaction < 6 then fs ++ ["Low satisfaction"] else fs
  let fs := if c.loginFrequency < 5 then fs ++ ["Low engagement"] else fs
  fs

/-- `router.post('/:id/predict')` on a found customer: compute the score,
level and factors, push the prediction, set `churnRisk` then `status`
(via `determineStatus`, reading the just-set risk), and `save()` — on that
save the hook sees `features` unmodified and `isNew` false, so it does not
recompute. Returns the prediction and the updated customer. -/
def predictCustomer (t : ℕ) (c : Customer) : Prediction × Customer :=
  let churnProbability := calculateChurnRisk c
  let riskLevel := riskLevelOf churnProbability
  let factors := factorsOf c
  let prediction : Prediction :=
    { date := t, churnProbability := churnProbability, riskLevel := riskLevel,
      factors := factors, modelVersion := "1.0" }
  let c := { c with predictions := c.predictions ++ [prediction] }
  let c := { c with churnRisk := churnProbability }
  let c := { c with status := determineStatus c.churnRisk }
  (prediction, preSave false false c)

/-- The per-customer body of `router.post('/predict/bulk')`: compute the
score, set `churnRisk` then `status`, push a prediction with an empty
factor list, and `save()` (hook fires with features unmodified, not new). -/
def bulkStep (t : ℕ) (c : Customer) : Customer :=
  let churnProbability := calculateChurnRisk c
  let riskLevel := riskLevelOf churnProbability
  let c := { c with churnRisk := churnProbability }
  let c := { c with status := determineStatus c.churnRisk }
  let prediction : Prediction :=
    { date := t, churnProbability := churnProbability, riskLevel := riskLevel,
      factors := [], modelVersion := "1.0" }
  let c := { c with predictions := c.predictions ++ [prediction] }
  preSave false false c

/-- `router.post('/predict/bulk')`: `Customer.find({status: {$ne: 'churned'}})`,
apply the per-customer update to each, and respond with
`processedCustomers: customers.length`. -/
def bulkRecompute (t : ℕ) (cs : List Customer) : List Customer × ℕ :=
  let selected := cs.filter (fun c => c.status ≠ Status.churned)
  (selected.map (bulkStep t), selected.length)

/-- The `$bucket` stage of `router.get('/analytics/summary')` with
`boundaries: [0, 0.3, 0.7, 1.0]` and `default: 'other'`: per MongoDB
`$bucket` semantics each adjacent boundary pair is an inclusive-lower,
exclusive-upper interval, and any value falling in no interval goes to the
default bucket. The constructors are named after the bucket ids. -/
inductive RiskBucket where
  | b0
  | b03
  | b07
  | other
deriving DecidableEq, Repr

/-- Bucket assignment of one `churnRisk` value under the `$bucket` stage. -/
def bucketOf (v : ℚ) : RiskBucket :=
  if 0 ≤ v ∧ v < 3 / 10 then RiskBucket.b0
  else if 3 / 10 ≤ v ∧ v < 7 / 10 then RiskBucket.b03
  else if 7 / 10 ≤ v ∧ v < 1 then RiskBucket.b07
  else RiskBucket.other

/-- Count of customers landing in a given risk bucket. -/
def bucketCount (b : RiskBucket) (cs : List Customer) : ℕ :=
  (cs.filter (fun c => bucketOf c.churnRisk = b)).length

/-- The specification's §8 scenario customer: daysSinceLastLogin 0,
supportTickets 0, loginFrequency 30, contractLength 36,
supportSatisfaction 10, subscriptionValue 10000, productUsage 100. -/
def perfectCustomer : Customer :=
  { name := "Ada", email := "ada@example.com", company := "Acme",
    subscriptionValue := 10000, lastActivity := 0,
    supportTickets := 0, loginFrequency := 30, contractLength := 36,
    churnRisk := 0, status := Status.active,
    features :=
      { daysSinceLastLogin := 0, avgSessionDuration := 0, totalTransactions := 0,
        avgTransactionValue := 0, productUsage := 100, supportSatisfaction := 10,
        contractRenewalHistory := 0 },
    predictions := [], interactions := [] }

/-- The FactorExplainer scenario: daysSinceLastLogin 20, supportTickets 6,
supportSatisfaction 5, loginFrequency 3. -/
def explainScenarioCustomer : Customer :=
  { perfectCustomer with
    supportTickets := 6, loginFrequency := 3,
    features :=
      { perfectCustomer.features with
        daysSinceLastLogin := 20, supportSatisfaction := 5 } }

/-- A second non-churned customer for the bulk scenario. -/
def riskyCustomer : Customer :=
  { perfectCustomer with
    name := "Bob", email := "bob@example.com", status := Status.at_risk,
    churnRisk := 1 / 2 }

/-- A customer already stored with status churned, for the bulk scenario. -/
def churnedCustomer : Customer :=
  { perfectCustomer with
    name := "Cleo", email := "cleo@example.com", status := Status.churned,
    churnRisk := 8 / 10 }

/-- The three-customer population of the bulk scenario: one churned. -/
def pop3 : List Customer :=
  [perfectCustomer, riskyCustomer, churnedCustomer]

/-- A normalization lying in [0,1], scaled by a nonnegative weight, yields a
contribution in [0, weight]. -/
theorem band_of_capped (x w : ℚ) (hx0 : 0 ≤ x) (hx1 : x ≤ 1) (hw : 0 ≤ w) :
    0 ≤ x * w ∧ x * w ≤ w :=
  ⟨mul_nonneg hx0 hw, by nlinarith⟩

/-- C1: for every FeatureSet and every values of the four commercial
attributes, including zeros and arbitrarily large values, the risk score
returned by calculateChurnRisk lies in the closed interval [0,1]. -/
theorem calculateChurnRisk_mem_unit (c : Customer) :
    0 ≤ calculateChurnRisk c ∧ calculateChurnRisk c ≤ 1 := by
  unfold calculateChurnRisk
  exact ⟨le_max_left 0 _, max_le (by norm_num) (min_le_left 1 _)⟩

/-- C2: for every risk score r in [0,1], determineStatus returns active iff
r < 0.3, at_risk iff 0.3 ≤ r < 0.7, churned iff r ≥ 0.7, including the
boundary values; and the route's risk level uses the same cutoffs, so
status and risk level always correspond. -/
theorem determineStatus_riskLevel_cutoffs (r : ℚ) (h0 : 0 ≤ r) (h1 : r ≤ 1) :
    (determineStatus r = Status.active ↔ r < 3 / 10) ∧
    (determineStatus r = Status.at_risk ↔ 3 / 10 ≤ r ∧ r < 7 / 10) ∧
    (determineStatus r = Status.churned ↔ 7 / 10 ≤ r) ∧
    (riskLevelOf r = RiskLevel.low ↔ determineStatus r = Status.active) ∧
    (riskLevelOf r = RiskLevel.medium ↔ determineStatus r = Status.at_risk) ∧
    (riskLevelOf r = RiskLevel.high ↔ determineStatus r = Status.churned) := by
  unfold determineStatus riskLevelOf
  split_ifs with ha hb <;> simp_all [not_lt] <;> linarith

/-- Witness for C2 at the boundary value 0.3. -/
theorem determineStatus_riskLevel_cutoffs_witness :
    determineStatus (3 / 10) = Status.at_risk ↔
      (3 : ℚ) / 10 ≤ 3 / 10 ∧ (3 : ℚ) / 10 < 7 / 10 :=
  (determineStatus_riskLevel_cutoffs (3 / 10) (by norm_num) (by norm_num)).2.1

/-- C3 counterexample: the days-since-last-login term is not capped: at
d = 60 it contributes 1/2, not min(60/30,1) × 0.25 = 1/4. -/
theorem daysContribution_uncapped_cex :
    daysSinceLastLoginContribution 60 = 1 / 2 ∧
    min ((60 : ℚ) / 30) 1 * (25 / 100) = 1 / 4 ∧
    (1 : ℚ) / 2 ≠ 1 / 4 := by
  refine ⟨by norm_num [daysSinceLastLoginContribution], ?_, by norm_num⟩
  rw [min_def]
  norm_num

/-- C3 amended: six of the seven signal terms keep their contribution inside
[0, weight] (five by an explicit min cap, support satisfaction by its
validated 1–10 range), but the days-since-last-login term is uncapped:
for every d > 30 its contribution strictly exceeds its 0.25 weight. -/
theorem contributions_bands (d t f l s v u : ℚ)
    (hd : 30 < d) (ht : 0 ≤ t) (hf : 0 ≤ f) (hl : 0 ≤ l)
    (hs1 : 1 ≤ s) (hs10 : s ≤ 10) (hv : 0 ≤ v) (hu : 0 ≤ u) :
    25 / 100 < daysSinceLastLoginContribution d ∧
    (0 ≤ supportTicketsContribution t ∧ supportTicketsContribution t ≤ 20 / 100) ∧
    (0 ≤ loginFrequencyContribution f ∧ loginFrequencyContribution f ≤ 15 / 100) ∧
    (0 ≤ contractLengthContribution l ∧ contractLengthContribution l ≤ 10 / 100) ∧
    (0 ≤ supportSatisfactionContribution s ∧ supportSatisfactionContribution s ≤ 15 / 100) ∧
    (0 ≤ subscriptionValueContribution v ∧ subscriptionValueContribution v ≤ 10 / 100) ∧
    (0 ≤ productUsageContribution u ∧ productUsageContribution u ≤ 5 / 100) := by
  refine ⟨?_, ?_, ?_, ?_, ?_, ?_, ?_⟩
  · unfold daysSinceLastLoginContribution
    nlinarith
  · unfold supportTicketsContribution
    exact band_of_capped (min (t / 10) 1) (20 / 100)
      (le_min (div_nonneg ht (by norm_num)) (by norm_num)) (min_le_right _ _) (by norm_num)
  · unfold loginFrequencyContribution
    have hle := min_le_right (f / 30) 1
    have hge : (0 : ℚ) ≤ min (f / 30) 1 := le_min (div_nonneg hf (by norm_num)) (by norm_num)
    exact band_of_capped (1 - min (f / 30) 1) (15 / 100)
      (by linarith) (by linarith) (by norm_num)
  · unfold contractLengthContribution
    have hle := min_le_right (l / 36) 1
    have hge : (0 : ℚ) ≤ min (l / 36) 1 := le_min (div_nonneg hl (by norm_num)) (by norm_num)
    exact band_of_capped (1 - min (l / 36) 1) (10 / 100)
      (by linarith) (by linarith) (by norm_num)
  · unfold supportSatisfactionContribution
    exact band_of_capped (1 - s / 10) (15 / 100) (by linarith) (by linarith) (by norm_num)
  · unfold subscriptionValueContribution
    have hle := min_le_right (v / 10000) 1
    have hge : (0 : ℚ) ≤ min (v / 10000) 1 := le_min (div_nonneg hv (by norm_num)) (by norm_num)
    exact band_of_capped (1 - min (v / 10000) 1) (10 / 100)
      (by linarith) (by linarith) (by norm_num)
  · unfold productUsageContribution
    have hle := min_le_right (u / 100) 1
    have hge : (0 : ℚ) ≤ min (u / 100) 1 := le_min (div_nonneg hu (by norm_num)) (by norm_num)
    exact band_of_capped (1 - min (u / 100) 1) (5 / 100)
      (by linarith) (by linarith) (by norm_num)

/-- Witness for the amended C3 at d = 60, t = f = l = 0, s = 5, v = u = 0. -/
theorem contributions_bands_witness :
    25 / 100 < daysSinceLastLoginContribution 60 :=
  (contributions_bands 60 0 0 0 5 0 0 (by norm_num) le_rfl le_rfl le_rfl
    (by norm_num) (by norm_num) le_rfl le_rfl).1

/-- The scenario customer's raw score: every signal contribution is zero,
leaving exactly the base of 0.5. -/
theorem perfectCustomer_risk : calculateChurnRisk perfectCustomer = 1 / 2 := by
  norm_num [calculateChurnRisk, perfectCustomer, daysSinceLastLoginContribution,
    supportTicketsContribution, loginFrequencyContribution, contractLengthContribution,
    supportSatisfactionContribution, subscriptionValueContribution,
    productUsageContribution, min_def, max_def]

/-- Creating the scenario customer stores risk 0.5 and status at_risk. -/
theorem perfectCustomer_created :
    (createCustomer perfectCustomer).churnRisk = 1 / 2 ∧
    (createCustomer perfectCustomer).status = Status.at_risk := by
  constructor
  · show calculateChurnRisk perfectCustomer = 1 / 2
    exact perfectCustomer_risk
  · show determineStatus (calculateChurnRisk perfectCustomer) = Status.at_risk
    rw [perfectCustomer_risk]
    norm_num [determineStatus]

/-- C6 counterexample: the scenario customer's stored status after creation
is at_risk, not active as claimed. -/
theorem perfectCustomer_status_cex :
    (createCustomer perfectCustomer).status = Status.at_risk ∧
    Status.at_risk ≠ Status.active :=
  ⟨perfectCustomer_created.2, by simp⟩

/-- C6 amended: the scenario customer receives a risk score of exactly 0.5
(the base, every signal contribution being zero) and status at_risk, since
determineStatus maps 0.5 to at_risk (0.3 ≤ 0.5 < 0.7). -/
theorem perfectCustomer_risk_half_at_risk :
    calculateChurnRisk perfectCustomer = 1 / 2 ∧
    (createCustomer perfectCustomer).churnRisk = 1 / 2 ∧
    (createCustomer perfectCustomer).status = Status.at_risk :=
  ⟨perfectCustomer_risk, perfectCustomer_created.1, perfectCustomer_created.2⟩

/-- C4 counterexample: a PUT that raises supportTickets to 100 on the
created scenario customer leaves churnRisk at 0.5 while the score of the
stored state is 0.7, and leaves status at_risk while the classifier of the
stored features says churned: the update endpoint does not recompute. -/
theorem update_stale_cex :
    (updateCustomer { supportTickets := some 100 } (createCustomer perfectCustomer)).churnRisk
      ≠ calculateChurnRisk
          (updateCustomer { supportTickets := some 100 } (createCustomer perfectCustomer)) ∧
    (updateCustomer { supportTickets := some 100 } (createCustomer perfectCustomer)).status
      ≠ determineStatus
          (calculateChurnRisk
            (updateCustomer { supportTickets := some 100 } (createCustomer perfectCustomer))) := by
  have hrisk : calculateChurnRisk
      (updateCustomer { supportTickets := some 100 } (createCustomer perfectCustomer))
      = 7 / 10 := by
    norm_num [calculateChurnRisk, updateCustomer, createCustomer, preSave, perfectCustomer,
      daysSinceLastLoginContribution, supportTicketsContribution, loginFrequencyContribution,
      contractLengthContribution, supportSatisfactionContribution,
      subscriptionValueContribution, productUsageContribution, min_def, max_def]
  have hstored :
      (updateCustomer { supportTickets := some 100 } (createCustomer perfectCustomer)).churnRisk
      = 1 / 2 := by
    show calculateChurnRisk perfectCustomer = 1 / 2
    exact perfectCustomer_risk
  have hstatus :
      (updateCustomer { supportTickets := some 100 } (createCustomer perfectCustomer)).status
      = Status.at_risk := by
    show determineStatus (calculateChurnRisk perfectCustomer) = Status.at_risk
    rw [perfectCustomer_risk]
    norm_num [determineStatus]
  constructor
  · rw [hrisk, hstored]
    norm_num
  · rw [hrisk, hstatus]
    have hchurn : determineStatus (7 / 10) = Status.churned := by
      norm_num [determineStatus]
    rw [hchurn]
    simp

/-- C4 amended: creation and the predict endpoint both persist a risk equal
to the score of the stored features and a status equal to the classifier of
that risk; the update endpoint, which uses findByIdAndUpdate and so bypasses
the pre-save hook, performs no recomputation: when the body does not set
churnRisk or status, both are carried over unchanged regardless of which
features or commercial attributes the body edits. -/
theorem writes_recompute_except_update :
    (∀ c : Customer,
      (createCustomer c).churnRisk = calculateChurnRisk c ∧
      (createCustomer c).status = determineStatus (calculateChurnRisk c) ∧
      calculateChurnRisk (createCustomer c) = calculateChurnRisk c) ∧
    (∀ (t : ℕ) (c : Customer),
      ((predictCustomer t c).2).churnRisk = calculateChurnRisk c ∧
      ((predictCustomer t c).2).status = determineStatus (calculateChurnRisk c) ∧
      calculateChurnRisk ((predictCustomer t c).2) = calculateChurnRisk c) ∧
    (∀ (b : UpdateBody) (c : Customer), b.churnRisk = none → b.status = none →
      (updateCustomer b c).churnRisk = c.churnRisk ∧
      (updateCustomer b c).status = c.status) := by
  refine ⟨fun c => ⟨rfl, rfl, rfl⟩, fun t c => ⟨rfl, rfl, rfl⟩, fun b c hb hs => ?_⟩
  constructor
  · show b.churnRisk.getD c.churnRisk = c.churnRisk
    rw [hb]
    rfl
  · show b.status.getD c.status = c.status
    rw [hs]
    rfl

/-- Witness for the amended C4: an empty update body on the created scenario
customer leaves risk and status untouched. -/
theorem writes_recompute_except_update_witness :
    (updateCustomer {} (createCustomer perfectCustomer)).churnRisk
      = (createCustomer perfectCustomer).churnRisk ∧
    (updateCustomer {} (createCustomer perfectCustomer)).status
      = (createCustomer perfectCustomer).status :=
  writes_recompute_except_update.2.2 {} (createCustomer perfectCustomer) rfl rfl

/-- C5: predicting twice with unchanged features yields the same score on
both calls, and each call appends exactly one record to the history. -/
theorem predict_score_stable_one_record (t1 t2 : ℕ) (c : Customer) :
    ((predictCustomer t2 (predictCustomer t1 c).2).1).churnProbability
      = ((predictCustomer t1 c).1).churnProbability ∧
    ((predictCustomer t1 c).2).predictions.length = c.predictions.length + 1 ∧
    ((predictCustomer t2 (predictCustomer t1 c).2).2).predictions.length
      = ((predictCustomer t1 c).2).predictions.length + 1 := by
  refine ⟨rfl, ?_, ?_⟩
  · show (c.predictions ++ [(predictCustomer t1 c).1]).length = c.predictions.length + 1
    simp
  · show ((predictCustomer t1 c).2.predictions ++ [(predictCustomer t2 (predictCustomer t1 c).2).1]).length
        = (predictCustomer t1 c).2.predictions.length + 1
    simp

/-- C10: the predict operation changes only churnRisk, status and the
prediction history (appending exactly one record): every other field of the
customer, the FeatureSet, the interaction log and all pre-existing
prediction records are unchanged. -/
theorem predict_frame (t : ℕ) (c : Customer) :
    ((predictCustomer t c).2).name = c.name ∧
    ((predictCustomer t c).2).email = c.email ∧
    ((predictCustomer t c).2).company = c.company ∧
    ((predictCustomer t c).2).subscriptionValue = c.subscriptionValue ∧
    ((predictCustomer t c).2).lastActivity = c.lastActivity ∧
    ((predictCustomer t c).2).supportTickets = c.supportTickets ∧
    ((predictCustomer t c).2).loginFrequency = c.loginFrequency ∧
    ((predictCustomer t c).2).contractLength = c.contractLength ∧
    ((predictCustomer t c).2).features = c.features ∧
    ((predictCustomer t c).2).interactions = c.interactions ∧
    ((predictCustomer t c).2).predictions = c.predictions ++ [(predictCustomer t c).1] :=
  ⟨rfl, rfl, rfl, rfl, rfl, rfl, rfl, rfl, rfl, rfl, rfl⟩

/-- C8: bulk recompute selects exactly the non-churned customers, persists
for each a recomputed risk, a consistent status and one appended record
with an empty factor list, and returns the number selected; on the
three-customer population with one churned it returns 2. -/
theorem bulkRecompute_selects_nonchurned (t : ℕ) (cs : List Customer) :
    (bulkRecompute t cs).2 = cs.countP (fun c => c.status ≠ Status.churned) ∧
    (∀ c, c ∈ cs → c.status ≠ Status.churned →
      bulkStep t c ∈ (bulkRecompute t cs).1 ∧
      (bulkStep t c).churnRisk = calculateChurnRisk c ∧
      (bulkStep t c).status = determineStatus (calculateChurnRisk c) ∧
      (bulkStep t c).predictions = c.predictions ++
        [{ date := t, churnProbability := calculateChurnRisk c,
           riskLevel := riskLevelOf (calculateChurnRisk c),
           factors := [], modelVersion := "1.0" }]) ∧
    (∀ c', c' ∈ (bulkRecompute t cs).1 →
      ∃ c, c ∈ cs ∧ c.status ≠ Status.churned ∧ c' = bulkStep t c) ∧
    (bulkRecompute t pop3).2 = 2 := by
  refine ⟨?_, ?_, ?_, ?_⟩
  · show (cs.filter (fun c => c.status ≠ Status.churned)).length = _
    rw [List.countP_eq_length_filter]
  · intro c hc hnc
    refine ⟨?_, rfl, rfl, rfl⟩
    exact List.mem_map_of_mem _ (List.mem_filter.mpr ⟨hc, by simpa using hnc⟩)
  · intro c' hc'
    rcases List.mem_map.mp hc' with ⟨c, hc, rfl⟩
    rcases List.mem_filter.mp hc with ⟨hmem, hdec⟩
    exact ⟨c, hmem, by simpa using hdec, rfl⟩
  · show (pop3.filter (fun c => c.status ≠ Status.churned)).length = 2
    simp [pop3, perfectCustomer, riskyCustomer, churnedCustomer]

/-- Witness for C8: the scenario customer is processed by the bulk run over
the three-customer population. -/
theorem bulkRecompute_selects_nonchurned_witness :
    bulkStep 0 perfectCustomer ∈ (bulkRecompute 0 pop3).1 :=
  ((bulkRecompute_selects_nonchurned 0 pop3).2.1 perfectCustomer
    (by simp [pop3]) (by simp [perfectCustomer])).1

/-- C9: the factor list contains exactly the strings of the rules that
fire, in the fixed check order; it is empty when no rule fires; and on the
scenario input (20, 6, 5, 3) it is all four strings in rule order. -/
theorem factorsOf_rules (c : Customer) :
    (∀ s, s ∈ factorsOf c ↔
      ((s = "Inactive user" ∧ c.features.daysSinceLastLogin > 14) ∨
       (s = "High support volume" ∧ c.supportTickets > 5) ∨
       (s = "Low satisfaction" ∧ c.features.supportSatisfaction < 6) ∨
       (s = "Low engagement" ∧ c.loginFrequency < 5))) ∧
    factorsOf c =
      (if c.features.daysSinceLastLogin > 14 then ["Inactive user"] else []) ++
      (if c.supportTickets > 5 then ["High support volume"] else []) ++
      (if c.features.supportSatisfaction < 6 then ["Low satisfaction"] else []) ++
      (if c.loginFrequency < 5 then ["Low engagement"] else []) ∧
    (¬ c.features.daysSinceLastLogin > 14 → ¬ c.supportTickets > 5 →
     ¬ c.features.supportSatisfaction < 6 → ¬ c.loginFrequency < 5 →
     factorsOf c = []) ∧
    factorsOf explainScenarioCustomer =
      ["Inactive user", "High support volume", "Low satisfaction", "Low engagement"] := by
  have hscen : factorsOf explainScenarioCustomer =
      ["Inactive user", "High support volume", "Low satisfaction", "Low engagement"] := by
    norm_num [factorsOf, explainScenarioCustomer, perfectCustomer]
  refine ⟨?_, ?_, ?_, hscen⟩
  · intro s
    by_cases h1 : c.features.daysSinceLastLogin > 14 <;>
      by_cases h2 : c.supportTickets > 5 <;>
        by_cases h3 : c.features.supportSatisfaction < 6 <;>
          by_cases h4 : c.loginFrequency < 5 <;>
            simp [factorsOf, h1, h2, h3, h4, or_assoc]
  · by_cases h1 : c.features.daysSinceLastLogin > 14 <;>
      by_cases h2 : c.supportTickets > 5 <;>
        by_cases h3 : c.features.supportSatisfaction < 6 <;>
          by_cases h4 : c.loginFrequency < 5 <;>
            simp [factorsOf, h1, h2, h3, h4]
  · intro h1 h2 h3 h4
    simp [factorsOf, h1, h2, h3, h4]

/-- Witness for C9: on a customer with no rule firing the factor list is
empty (instantiated at the scenario customer of C6, whose features trip no
rule). -/
theorem factorsOf_rules_witness :
    factorsOf perfectCustomer = [] :=
  (factorsOf_rules perfectCustomer).2.2.1
    (by norm_num [perfectCustomer]) (by norm_num [perfectCustomer])
    (by norm_num [perfectCustomer]) (by norm_num [perfectCustomer])

/-- Each of the three named buckets receives exactly its half-open range. -/
theorem bucketOf_ranges (v : ℚ) :
    (bucketOf v = RiskBucket.b0 ↔ 0 ≤ v ∧ v < 3 / 10) ∧
    (bucketOf v = RiskBucket.b03 ↔ 3 / 10 ≤ v ∧ v < 7 / 10) ∧
    (bucketOf v = RiskBucket.b07 ↔ 7 / 10 ≤ v ∧ v < 1) := by
  unfold bucketOf
  refine ⟨?_, ?_, ?_⟩ <;> split_ifs with h1 h2 h3 <;> simp_all <;> intros <;> linarith

/-- One customer lands in exactly one bucket, so the four counts add up. -/
theorem bucketCount_sum (cs : List Customer) :
    bucketCount RiskBucket.b0 cs + bucketCount RiskBucket.b03 cs +
      bucketCount RiskBucket.b07 cs + bucketCount RiskBucket.other cs = cs.length := by
  induction cs with
  | nil => rfl
  | cons c tl ih =>
      cases h : bucketOf c.churnRisk <;>
        simp [bucketCount, List.filter_cons, h] at * <;> omega

/-- C7 counterexample: a churn risk of exactly 1 is assigned to the
overflow bucket, not to the [0.7, 1.0] bucket as claimed. -/
theorem bucket_one_overflow_cex :
    bucketOf 1 = RiskBucket.other ∧ RiskBucket.other ≠ RiskBucket.b07 := by
  constructor
  · norm_num [bucketOf]
  · simp

/-- C7 amended: the three ranges [0,0.3), [0.3,0.7), [0.7,1.0) are disjoint
(each bucket receives exactly its range), every score in [0,1) falls into
one of the three, a score of exactly 1.0 falls into the overflow bucket
(MongoDB bucket upper bounds are exclusive), and the four bucket counts,
overflow included, sum exactly to the population size. -/
theorem riskBuckets_partition :
    (∀ v : ℚ,
      (bucketOf v = RiskBucket.b0 ↔ 0 ≤ v ∧ v < 3 / 10) ∧
      (bucketOf v = RiskBucket.b03 ↔ 3 / 10 ≤ v ∧ v < 7 / 10) ∧
      (bucketOf v = RiskBucket.b07 ↔ 7 / 10 ≤ v ∧ v < 1)) ∧
    (∀ v : ℚ, 0 ≤ v → v < 1 → bucketOf v ≠ RiskBucket.other) ∧
    bucketOf 1 = RiskBucket.other ∧
    (∀ cs : List Customer,
      bucketCount RiskBucket.b0 cs + bucketCount RiskBucket.b03 cs +
        bucketCount RiskBucket.b07 cs + bucketCount RiskBucket.other cs = cs.length) := by
  refine ⟨bucketOf_ranges, ?_, by norm_num [bucketOf], bucketCount_sum⟩
  intro v h0 h1
  unfold bucketOf
  split_ifs with ha hb hc
  · simp
  · simp
  · simp
  · exfalso
    simp only [not_and, not_lt] at ha hb hc
    have h3 : 3 / 10 ≤ v := ha h0
    have h7 : 7 / 10 ≤ v := hb h3
    have hge1 : 1 ≤ v := hc h7
    linarith

/-- Witness for the amended C7: the score 1/2 lands in a real bucket, not
the overflow bucket. -/
theorem riskBuckets_partition_witness :
    bucketOf (1 / 2) ≠ RiskBucket.other :=
  riskBuckets_partition.2.1 (1 / 2) (by norm_num) (by norm_num)
